import Mathlib

/-!
Verification of the `infer_google_vision_landmark_detection` Ikomia plugin
(`infer_google_vision_landmark_detection_process.py`).

The plugin wraps the Google Cloud Vision landmark-detection endpoint: it sends
an image to the service, checks the response for an error message, filters the
returned landmark annotations by a confidence threshold, translates each
bounding polygon of each retained annotation into a detection box, and
publishes the raw annotation list as a string under the key "Landmarks".

Shallow embedding choices:
* Scores are modelled as rationals (`ℚ`): the Python code only compares and
  forwards them, so any exact ordered field is faithful.
* Bounding-polygon vertex coordinates are integers (the Google Vision `Vertex`
  protobuf message carries `int32 x, y`); the Python `float(x_box)` coercion
  is value-preserving on this range.
* The service response is a record with the error-message string and the list
  of annotations; `run` returns `Except String RunOutput`, where the error
  branch mirrors the `raise Exception(...)` placed before any box is emitted
  and before the "Landmarks" dictionary is written.
* `set_names` is a host-API call; we record the trace of labels it is called
  with (one call per retained annotation, each with a single label).
* The f-string rendering of the repeated protobuf field `landmarks` is
  modelled by the executable serializer `render`, which renders the empty list
  as `"[]"` and otherwise depends on the whole pre-filter list.
-/

/-- One `(latitude, longitude)` pair from `landmark.locations`. -/
structure LatLng where
  latitude : ℚ
  longitude : ℚ
  deriving DecidableEq, Repr

/-- One landmark annotation from the service response.  Fields consumed by the
plugin: `description`, `score`, `bounding_poly.vertices` (as `(x, y)` pairs)
and `locations`. -/
structure Annotation where
  description : String
  score : ℚ
  vertices : List (Int × Int)
  locations : List LatLng
  deriving DecidableEq, Repr

/-- The slice of the Google Vision response read by `run`:
`response.error.message` and `response.landmark_annotations`. -/
structure Response where
  errorMessage : String
  landmark_annotations : List Annotation
  deriving DecidableEq, Repr

/-- One detection registered through `self.add_object(i, 0, score, x, y, w, h)`. -/
structure DetectionBox where
  index : Nat
  classId : Nat
  score : ℚ
  x : Int
  y : Int
  w : Int
  h : Int
  deriving DecidableEq, Repr

/-- The static documentation pointer appended to the service error message in
the `raise Exception(...)` call. -/
def docPointer : String :=
  "\nFor more info on error messages, check: https://cloud.google.com/apis/design/errors"

/-- Box construction for one retained annotation (lines 102-112):
`x_box = vertices[0][0]`, `y_box = vertices[0][1]`,
`w = vertices[1][0] - x_box`, `h = vertices[2][1] - y_box`, emitted as
`add_object(i, 0, landmark.score, float(x_box), float(y_box), w, h)`.
Out-of-range vertex access defaults to `(0, 0)` in the model; Google Vision
bounding polygons always carry four vertices and every theorem below that
talks about geometry hypothesises the four-vertex shape. -/
def boxOf (i : Nat) (a : Annotation) : DetectionBox :=
  let x_box := (a.vertices.getD 0 (0, 0)).1
  let y_box := (a.vertices.getD 0 (0, 0)).2
  let w := (a.vertices.getD 1 (0, 0)).1 - x_box
  let h := (a.vertices.getD 2 (0, 0)).2 - y_box
  ⟨i, 0, a.score, x_box, y_box, w, h⟩

/-- The `for i, landmark in enumerate(landmarks):` loop body (lines 98-112):
annotations with `score < conf_thres` are skipped; for the rest the label is
registered via `set_names([description])` and a box is added.  The result is
the list of emitted boxes and the trace of registered labels, in loop order. -/
def runLoop (thres : ℚ) : List (Nat × Annotation) → List DetectionBox × List String
  | [] => ([], [])
  | (i, a) :: rest =>
    if a.score < thres then runLoop thres rest
    else
      let r := runLoop thres rest
      (boxOf i a :: r.1, a.description :: r.2)

/-- Serialization of one annotation, modelling its protobuf repr. -/
def renderAnnotation (a : Annotation) : String :=
  "mid: \"\" description: \"" ++ a.description ++ "\" score: " ++ toString a.score

/-- Serialization of the annotation list, modelling the f-string rendering of
the repeated protobuf field `landmarks` (the empty field renders as `"[]"`). -/
def render (landmarks : List Annotation) : String :=
  "[" ++ String.intercalate ", " (landmarks.map renderAnnotation) ++ "]"

/-- Everything `run` publishes on the success path: the detection boxes, the
trace of labels passed to `set_names`, the dictionary written to the
dictionary output at slot 2, and whether the "No landmark detected"
diagnostic was printed. -/
structure RunOutput where
  boxes : List DetectionBox
  namesTrace : List String
  outputDict : List (String × String)
  notice : Bool
  deriving DecidableEq, Repr

/-- The response-processing part of `InferGoogleVisionLandmarkDetection.run`
(lines 86-118): raise when `response.error.message` is non-empty, otherwise
print the zero-detection notice when applicable, run the filter/translate
loop over the enumerated annotations, and write the "Landmarks" dictionary
from the full pre-filter list. -/
def run (thres : ℚ) (resp : Response) : Except String RunOutput :=
  if resp.errorMessage ≠ "" then
    Except.error (resp.errorMessage ++ docPointer)
  else
    let landmarks := resp.landmark_annotations
    let notice := landmarks.length == 0
    let r := runLoop thres landmarks.enum
    Except.ok ⟨r.1, r.2, [("Landmarks", render landmarks)], notice⟩

/-- Session state for the lazy client initialization (lines 74-77): the cached
client handle (`self.client`), the `GOOGLE_APPLICATION_CREDENTIALS` process
environment variable, and a counter of client constructions. -/
structure SessionState where
  client : Option Unit
  env : Option String
  constructions : Nat
  deriving DecidableEq, Repr

/-- The client-acquisition prefix of `run` (lines 74-77): when `self.client`
is `None`, set the environment variable if the credentials path parameter is
non-empty, then construct the client; otherwise do nothing. -/
def acquireClient (creds : String) (s : SessionState) : SessionState :=
  match s.client with
  | some _ => s
  | none =>
    { client := some ()
      env := if creds ≠ "" then some creds else s.env
      constructions := s.constructions + 1 }

/-- The algorithm parameters (`InferGoogleVisionLandmarkDetectionParam`),
polymorphic in the host float type `F` so that the Python `float` and `str`
primitives can be supplied as functions. -/
structure ParamData (F : Type) where
  conf_thres : F
  google_application_credentials : String
  deriving DecidableEq, Repr

/-- Lookup in the string-keyed parameter dictionary (`params["k"]`). -/
def lookupParam (d : List (String × String)) (k : String) : String :=
  ((d.find? (fun kv => kv.1 == k)).getD (k, "")).2

/-- `get_values` (lines 27-33): serialize both parameters into the string
dictionary, `conf_thres` via `str(float)` (the supplied `toStr`) and the
credentials path via `str` on a string (the identity). -/
def get_values {F : Type} (toStr : F → String) (p : ParamData F) :
    List (String × String) :=
  [("conf_thres", toStr p.conf_thres),
   ("google_application_credentials", p.google_application_credentials)]

/-- `set_values` (lines 21-25): overwrite both fields from the dictionary,
`conf_thres` via `float(...)` (the supplied `ofStr`) and the credentials path
via `str(...)` on a string (the identity). -/
def set_values {F : Type} (ofStr : String → F) (d : List (String × String)) :
    ParamData F :=
  { conf_thres := ofStr (lookupParam d "conf_thres")
    google_application_credentials := lookupParam d "google_application_credentials" }

/-! ## Helper lemmas and concrete fixtures -/

/-- The filter/translate loop produces exactly the image under `boxOf` (and the
description trace) of the enumerated pairs passing the `score ≥ thres` test. -/
lemma runLoop_eq (thres : ℚ) (l : List (Nat × Annotation)) :
    runLoop thres l =
      ((l.filter (fun p => thres ≤ p.2.score)).map (fun p => boxOf p.1 p.2),
       (l.filter (fun p => thres ≤ p.2.score)).map (fun p => p.2.description)) := by
  induction l with
  | nil => rfl
  | cons p rest ih =>
    obtain ⟨i, a⟩ := p
    by_cases h : a.score < thres
    · simp [runLoop, h, not_le.mpr h, ih]
    · simp [runLoop, h, not_lt.mp h, ih]

/-- Filtering the enumerated list by a predicate on the element and projecting
the description is the same as filtering the plain list. -/
lemma enumFrom_filter_map_desc (thres : ℚ) (l : List Annotation) :
    ∀ n, ((List.enumFrom n l).filter (fun p => thres ≤ p.2.score)).map
        (fun p => p.2.description) =
      (l.filter (fun a => thres ≤ a.score)).map (fun a => a.description) := by
  induction l with
  | nil => intro n; rfl
  | cons a rest ih =>
    intro n
    by_cases h : thres ≤ a.score
    · simp [List.enumFrom, h, ih]
    · simp [List.enumFrom, h, ih]

/-- Normal form of `run` on an error-free response. -/
lemma run_ok (thres : ℚ) (resp : Response) (herr : resp.errorMessage = "") :
    run thres resp = Except.ok
      ⟨(resp.landmark_annotations.enum.filter (fun p => thres ≤ p.2.score)).map
          (fun p => boxOf p.1 p.2),
       (resp.landmark_annotations.enum.filter (fun p => thres ≤ p.2.score)).map
          (fun p => p.2.description),
       [("Landmarks", render resp.landmark_annotations)],
       resp.landmark_annotations.length == 0⟩ := by
  simp [run, herr, runLoop_eq]

/-- A session whose client handle is already constructed is left unchanged by
the client-acquisition step. -/
lemma acquireClient_of_some (c : String) (s : SessionState)
    (h : s.client = some ()) : acquireClient c s = s := by
  obtain ⟨cl, env, n⟩ := s
  cases cl with
  | none => exact absurd h (by simp)
  | some u => rfl

/-- Repeated runs never change a session whose client is constructed. -/
lemma foldl_acquireClient (cs : List String) :
    ∀ s : SessionState, s.client = some () →
      cs.foldl (fun s c => acquireClient c s) s = s := by
  induction cs with
  | nil => intro s _; rfl
  | cons c rest ih =>
    intro s h
    rw [List.foldl_cons, acquireClient_of_some c s h]
    exact ih s h

/-- Fixture: a landmark annotation whose score sits exactly on the threshold
used in the witnesses. -/
def annA : Annotation :=
  { description := "Eiffel Tower", score := 1,
    vertices := [(10, 20), (110, 20), (110, 220), (10, 220)],
    locations := [⟨48, 2⟩] }

/-- Fixture: a landmark annotation scoring below the witness threshold. -/
def annB : Annotation :=
  { description := "Louvre", score := 0,
    vertices := [(0, 0), (5, 0), (5, 5), (0, 5)], locations := [] }

/-- Fixture: a second retained landmark annotation. -/
def annC : Annotation :=
  { description := "Arc de Triomphe", score := 1,
    vertices := [(3, 4), (7, 4), (7, 9), (3, 9)], locations := [] }

/-- Fixture: an error-free response carrying the three fixture annotations. -/
def resp1 : Response := ⟨"", [annA, annB, annC]⟩

/-! ## Claims -/

/-- Claim C1: for every annotation list returned by the service and every
confidence threshold, `run` produces exactly one detection box for each
annotation whose score is greater than or equal to the threshold (the
boundary score is retained, since the code skips only on `score < thres`),
produces no box for any annotation whose score is strictly below the
threshold, and emits the retained boxes in the order the service returned
them: the box list is the in-order image under `boxOf` of the enumerated
annotations passing the `≥` test. -/
theorem C1_one_box_per_retained_annotation (thres : ℚ) (resp : Response)
    (herr : resp.errorMessage = "") :
    ∃ out, run thres resp = Except.ok out ∧
      out.boxes = (resp.landmark_annotations.enum.filter
          (fun p => thres ≤ p.2.score)).map (fun p => boxOf p.1 p.2) :=
  ⟨_, run_ok thres resp herr, rfl⟩

/-- Witness for C1 at threshold 1 on the fixture response: the hypothesis is
discharged concretely and the retained boxes are exactly those of the two
annotations with score 1 (one of them exactly on the threshold). -/
theorem C1_one_box_per_retained_annotation_witness :
    resp1.errorMessage = "" ∧
    (∃ out, run 1 resp1 = Except.ok out ∧
      out.boxes = (resp1.landmark_annotations.enum.filter
          (fun p => (1 : ℚ) ≤ p.2.score)).map (fun p => boxOf p.1 p.2)) :=
  ⟨rfl, C1_one_box_per_retained_annotation 1 resp1 rfl⟩

/-- Claim C2: for every retained annotation whose bounding polygon has the
four vertices `[(x0,y0), (x1,y1), (x2,y2), v3]`, the emitted box geometry is
exactly `x = x0`, `y = y0`, `width = x1 - x0`, `height = y2 - y0`; the
fourth vertex is never read (replacing it changes nothing), and a negative
width or height is passed through uncorrected (the equalities are exact over
`Int`, with no absolute value or clamping). -/
theorem C2_box_geometry_from_first_three_vertices (thres : ℚ) (resp : Response)
    (i : Nat) (a : Annotation) (x0 y0 x1 y1 x2 y2 : Int) (v3 : Int × Int)
    (herr : resp.errorMessage = "")
    (hget : resp.landmark_annotations[i]? = some a)
    (hscore : thres ≤ a.score)
    (hverts : a.vertices = [(x0, y0), (x1, y1), (x2, y2), v3]) :
    ∃ out, run thres resp = Except.ok out ∧ boxOf i a ∈ out.boxes ∧
      (boxOf i a).x = x0 ∧ (boxOf i a).y = y0 ∧
      (boxOf i a).w = x1 - x0 ∧ (boxOf i a).h = y2 - y0 ∧
      ∀ w3 : Int × Int,
        boxOf i { a with vertices := [(x0, y0), (x1, y1), (x2, y2), w3] } =
          boxOf i a := by
  refine ⟨_, run_ok thres resp herr, ?_, ?_, ?_, ?_, ?_, ?_⟩
  · show boxOf i a ∈ (resp.landmark_annotations.enum.filter
        (fun p => thres ≤ p.2.score)).map (fun p => boxOf p.1 p.2)
    exact List.mem_map_of_mem (fun p : Nat × Annotation => boxOf p.1 p.2)
      (List.mem_filter.mpr
        ⟨List.mk_mem_enum_iff_getElem?.mpr hget, by simpa using hscore⟩)
  · simp [boxOf, hverts]
  · simp [boxOf, hverts]
  · simp [boxOf, hverts]
  · simp [boxOf, hverts]
  · intro w3
    simp [boxOf, hverts]

/-- Witness for C2 on the first fixture annotation: every hypothesis is
discharged at the concrete input and the geometry equalities are evaluated. -/
theorem C2_box_geometry_from_first_three_vertices_witness :
    (resp1.errorMessage = "" ∧ resp1.landmark_annotations[0]? = some annA ∧
      (1 : ℚ) ≤ annA.score ∧
      annA.vertices = [((10 : Int), (20 : Int)), (110, 20), (110, 220), (10, 220)]) ∧
    (∃ out, run 1 resp1 = Except.ok out ∧ boxOf 0 annA ∈ out.boxes ∧
      (boxOf 0 annA).x = 10 ∧ (boxOf 0 annA).y = 20 ∧
      (boxOf 0 annA).w = 110 - 10 ∧ (boxOf 0 annA).h = 220 - 20 ∧
      ∀ w3 : Int × Int,
        boxOf 0 { annA with vertices := [(10, 20), (110, 20), (110, 220), w3] } =
          boxOf 0 annA) :=
  ⟨⟨rfl, rfl, by decide, rfl⟩,
    C2_box_geometry_from_first_three_vertices 1 resp1 0 annA
      10 20 110 20 110 220 (10, 220) rfl rfl (by decide) rfl⟩

/-- Claim C3: `run` raises if and only if the service response carries a
non-empty error message; the raised message is exactly the service message
followed by the static documentation pointer (hence contains it verbatim),
and on the error path no detection box and no "Landmarks" dictionary is
produced, the raise happening before either is written. -/
theorem C3_error_raised_iff_nonempty_message (thres : ℚ) (resp : Response) :
    (∀ e, run thres resp = Except.error e ↔
      (resp.errorMessage ≠ "" ∧ e = resp.errorMessage ++ docPointer)) ∧
    (resp.errorMessage = "" → ∃ out, run thres resp = Except.ok out) := by
  constructor
  · intro e
    by_cases h : resp.errorMessage = ""
    · simp [run, h]
    · simp [run, h, eq_comm]
  · intro h
    exact ⟨_, run_ok thres resp h⟩

/-- Witness for C3, matching the spec scenario: a response whose error message
is "Invalid image" makes `run` fail with that message followed by the
documentation pointer. -/
theorem C3_error_raised_iff_nonempty_message_witness :
    run 1 (Response.mk "Invalid image" []) =
      Except.error ("Invalid image" ++ docPointer) :=
  ((C3_error_raised_iff_nonempty_message 1
      (Response.mk "Invalid image" [])).1 ("Invalid image" ++ docPointer)).mpr
    ⟨by decide, rfl⟩

/-- Claim C4 counterexample: with threshold 1 and annotations
`[annB, annA]` (scores 0 and 1), only `annA` is retained, so its enumeration
position among the retained annotations is 0; yet the emitted box carries
index 1, its position in the full pre-filter list, because the code reuses
the `enumerate(landmarks)` counter.  The claim that the index equals the
post-filter position is therefore false. -/
theorem C4_counterexample_index_is_prefilter_position :
    run 1 (Response.mk "" [annB, annA]) =
      Except.ok ⟨[boxOf 1 annA], [annA.description],
        [("Landmarks", render [annB, annA])], false⟩ ∧
    (boxOf 1 annA).index ≠ 0 := by
  exact ⟨rfl, by decide⟩

/-- Claim C4 as amended: every emitted box has class index fixed at 0, and its
index equals the enumeration position of its annotation in the full
pre-filter annotation list (not the post-filter position): looking up the
box index in the original list recovers a retained annotation from which the
box was built. -/
theorem C4_amended_index_and_class (thres : ℚ) (resp : Response)
    (herr : resp.errorMessage = "") :
    ∃ out, run thres resp = Except.ok out ∧
      ∀ b ∈ out.boxes, b.classId = 0 ∧
        ∃ a, resp.landmark_annotations[b.index]? = some a ∧
          thres ≤ a.score ∧ b = boxOf b.index a := by
  refine ⟨_, run_ok thres resp herr, ?_⟩
  intro b hb
  rw [show (RunOutput.boxes ⟨(resp.landmark_annotations.enum.filter
      (fun p => thres ≤ p.2.score)).map (fun p => boxOf p.1 p.2), _, _, _⟩) =
      (resp.landmark_annotations.enum.filter
        (fun p => thres ≤ p.2.score)).map (fun p => boxOf p.1 p.2) from rfl] at hb
  obtain ⟨⟨i, a⟩, hmem, rfl⟩ := List.mem_map.mp hb
  obtain ⟨henum, hsc⟩ := List.mem_filter.mp hmem
  refine ⟨rfl, a, ?_, by simpa using hsc, rfl⟩
  exact List.mk_mem_enum_iff_getElem?.mp henum

/-- Witness for the amended C4 on the fixture response at threshold 1. -/
theorem C4_amended_index_and_class_witness :
    resp1.errorMessage = "" ∧
    (∃ out, run 1 resp1 = Except.ok out ∧
      ∀ b ∈ out.boxes, b.classId = 0 ∧
        ∃ a, resp1.landmark_annotations[b.index]? = some a ∧
          (1 : ℚ) ≤ a.score ∧ b = boxOf b.index a) :=
  ⟨rfl, C4_amended_index_and_class 1 resp1 rfl⟩

/-- Claim C5: the registered labels across a completed run are exactly the
descriptions of the annotations whose score is at least the threshold, one
`set_names` call per retained annotation (no deduplication); in particular
the set of registered labels equals the set of unique retained descriptions
and the trace length equals the number of retained annotations. -/
theorem C5_registered_labels (thres : ℚ) (resp : Response)
    (herr : resp.errorMessage = "") :
    ∃ out, run thres resp = Except.ok out ∧
      out.namesTrace = (resp.landmark_annotations.filter
          (fun a => thres ≤ a.score)).map (fun a => a.description) ∧
      out.namesTrace.toFinset = ((resp.landmark_annotations.filter
          (fun a => thres ≤ a.score)).map (fun a => a.description)).toFinset ∧
      out.namesTrace.length = (resp.landmark_annotations.filter
          (fun a => thres ≤ a.score)).length := by
  have h1 : ((resp.landmark_annotations.enum.filter
        (fun p => thres ≤ p.2.score)).map (fun p => p.2.description)) =
      (resp.landmark_annotations.filter
        (fun a => thres ≤ a.score)).map (fun a => a.description) := by
    simpa [List.enum] using
      enumFrom_filter_map_desc thres resp.landmark_annotations 0
  exact ⟨_, run_ok thres resp herr, h1, by rw [h1],
    by rw [h1, List.length_map]⟩

/-- Witness for C5 on the fixture response at threshold 1: the trace is the
two retained descriptions in order. -/
theorem C5_registered_labels_witness :
    resp1.errorMessage = "" ∧
    (∃ out, run 1 resp1 = Except.ok out ∧
      out.namesTrace = (resp1.landmark_annotations.filter
          (fun a => (1 : ℚ) ≤ a.score)).map (fun a => a.description) ∧
      out.namesTrace.toFinset = ((resp1.landmark_annotations.filter
          (fun a => (1 : ℚ) ≤ a.score)).map (fun a => a.description)).toFinset ∧
      out.namesTrace.length = (resp1.landmark_annotations.filter
          (fun a => (1 : ℚ) ≤ a.score)).length) :=
  ⟨rfl, C5_registered_labels 1 resp1 rfl⟩

/-- Claim C6: on every error-free response, the dictionary output is exactly
the single key "Landmarks" mapped to the rendering of the complete
pre-filter annotation list, and it is the same at any two thresholds. -/
theorem C6_landmarks_payload_threshold_independent (thres thres2 : ℚ)
    (resp : Response) (herr : resp.errorMessage = "") :
    ∃ out out2, run thres resp = Except.ok out ∧
      run thres2 resp = Except.ok out2 ∧
      out.outputDict = [("Landmarks", render resp.landmark_annotations)] ∧
      out2.outputDict = out.outputDict :=
  ⟨_, _, run_ok thres resp herr, run_ok thres2 resp herr, rfl, rfl⟩

/-- Witness for C6 on the fixture response at thresholds 0 and 1. -/
theorem C6_landmarks_payload_threshold_independent_witness :
    resp1.errorMessage = "" ∧
    (∃ out out2, run 0 resp1 = Except.ok out ∧
      run 1 resp1 = Except.ok out2 ∧
      out.outputDict = [("Landmarks", render resp1.landmark_annotations)] ∧
      out2.outputDict = out.outputDict) :=
  ⟨rfl, C6_landmarks_payload_threshold_independent 0 1 resp1 rfl⟩

/-- Claim C7: starting from a fresh adapter (client field `None`), the first
run constructs the client exactly once (the construction counter becomes 1),
and any subsequent sequence of runs — with arbitrary, possibly changed
credentials paths — leaves the whole session state unchanged: the client is
reused and neither the client nor the credential environment variable is
affected by later credential changes. -/
theorem C7_client_constructed_once (c : String) (cs : List String)
    (e : Option String) :
    (acquireClient c ⟨none, e, 0⟩).client = some () ∧
    (acquireClient c ⟨none, e, 0⟩).constructions = 1 ∧
    cs.foldl (fun s c2 => acquireClient c2 s) (acquireClient c ⟨none, e, 0⟩) =
      acquireClient c ⟨none, e, 0⟩ :=
  ⟨rfl, rfl, foldl_acquireClient cs _ rfl⟩

/-- Claim C8 counterexample: with threshold 1 and the single annotation
`annB` (score 0), zero annotations pass the filter, yet `run` does not
produce the "No landmark detected" diagnostic (its notice flag is `false`,
since the pre-filter list is non-empty) and the auxiliary payload renders
the full non-empty list, not the empty list.  The claim, which asserts the
diagnostic notice and an empty-list payload also in the
zero-annotations-pass-the-filter case, is therefore false. -/
theorem C8_counterexample_filtered_out_is_silent :
    run 1 (Response.mk "" [annB]) =
      Except.ok ⟨[], [], [("Landmarks", render [annB])], false⟩ ∧
    render [annB] ≠ render ([] : List Annotation) :=
  ⟨rfl, by decide⟩

/-- Claim C8 as amended: a run on an error-free response never raises.  When
the service returns zero annotations, the run completes with empty detection
output, the "No landmark detected" diagnostic, and an auxiliary payload
rendering the empty list.  When annotations exist but none passes the
filter, the run still completes with empty detection output (and no label
registrations), but the diagnostic is tied to the pre-filter list being
empty, and the auxiliary payload renders the full pre-filter list. -/
theorem C8_amended_zero_detections (thres : ℚ) (resp : Response)
    (herr : resp.errorMessage = "") :
    (resp.landmark_annotations = [] →
      run thres resp = Except.ok ⟨[], [], [("Landmarks", render [])], true⟩) ∧
    ((∀ a ∈ resp.landmark_annotations, a.score < thres) →
      ∃ out, run thres resp = Except.ok out ∧ out.boxes = [] ∧
        out.namesTrace = [] ∧
        out.outputDict = [("Landmarks", render resp.landmark_annotations)] ∧
        out.notice = (resp.landmark_annotations.length == 0)) := by
  constructor
  · intro h
    have hr := run_ok thres resp herr
    rw [h] at hr
    simpa using hr
  · intro h
    have hfil : resp.landmark_annotations.enum.filter
        (fun p => thres ≤ p.2.score) = [] := by
      rw [List.filter_eq_nil_iff]
      intro p hp
      have hmem : p.2 ∈ resp.landmark_annotations := by
        have hg := List.mem_enum_iff_getElem?.mp hp
        exact List.getElem?_mem hg
      simp [not_le.mpr (h p.2 hmem)]
    exact ⟨_, run_ok thres resp herr, by simp [hfil], by simp [hfil], rfl, rfl⟩

/-- Witness for the amended C8: the empty response yields the empty output,
the notice, and the empty-list payload; a response whose only annotation is
filtered out yields empty detections without the notice. -/
theorem C8_amended_zero_detections_witness :
    ((Response.mk "" []).landmark_annotations = [] ∧
      run 1 (Response.mk "" []) =
        Except.ok ⟨[], [], [("Landmarks", render [])], true⟩) ∧
    ((∀ a ∈ (Response.mk "" [annB]).landmark_annotations, a.score < 1) ∧
      ∃ out, run 1 (Response.mk "" [annB]) = Except.ok out ∧ out.boxes = [] ∧
        out.namesTrace = [] ∧
        out.outputDict =
          [("Landmarks", render (Response.mk "" [annB]).landmark_annotations)] ∧
        out.notice = ((Response.mk "" [annB]).landmark_annotations.length == 0)) :=
  ⟨⟨rfl, (C8_amended_zero_detections 1 (Response.mk "" []) rfl).1 rfl⟩,
    ⟨by decide, (C8_amended_zero_detections 1 (Response.mk "" [annB]) rfl).2
      (by decide)⟩⟩

/-- Claim C9: parameter marshaling round-trips.  For every parameter object
whose `conf_thres` value survives the serialize/parse pair supplied for the
host float type (the documented behaviour of the Python `float(str(x))`
round-trip on finite floats), applying `set_values` to the dictionary
produced by `get_values` restores the original parameter object; moreover
`get_values` maps the key "conf_thres" to the stringified threshold and the
key "google_application_credentials" to the credentials string. -/
theorem C9_param_roundtrip {F : Type} (toStr : F → String)
    (ofStr : String → F) (p : ParamData F)
    (h : ofStr (toStr p.conf_thres) = p.conf_thres) :
    set_values ofStr (get_values toStr p) = p ∧
    lookupParam (get_values toStr p) "conf_thres" = toStr p.conf_thres ∧
    lookupParam (get_values toStr p) "google_application_credentials" =
      p.google_application_credentials := by
  refine ⟨?_, rfl, rfl⟩
  show ParamData.mk (ofStr (toStr p.conf_thres))
      p.google_application_credentials = p
  rw [h]

/-- Witness for C9 with a concrete serializable float stand-in. -/
theorem C9_param_roundtrip_witness :
    ((fun s : String => s == "1") ((fun b : Bool => if b then "1" else "0") true) =
      true) ∧
    (set_values (fun s : String => s == "1")
        (get_values (fun b : Bool => if b then "1" else "0")
          ⟨true, "key.json"⟩) = (⟨true, "key.json"⟩ : ParamData Bool) ∧
      lookupParam (get_values (fun b : Bool => if b then "1" else "0")
          ⟨true, "key.json"⟩) "conf_thres" =
        (fun b : Bool => if b then "1" else "0") true ∧
      lookupParam (get_values (fun b : Bool => if b then "1" else "0")
          ⟨true, "key.json"⟩) "google_application_credentials" = "key.json") :=
  ⟨by decide, C9_param_roundtrip (fun b : Bool => if b then "1" else "0")
    (fun s : String => s == "1") ⟨true, "key.json"⟩ (by decide)⟩

/-- Claim C10: the client-acquisition step touches the
`GOOGLE_APPLICATION_CREDENTIALS` environment variable only when the client
has not been constructed yet and the configured credentials path is
non-empty; when the client already exists the whole state (environment
included) is untouched, and when the credentials path is empty the
environment is untouched. -/
theorem C10_env_only_on_first_construction (creds : String) (s : SessionState) :
    ((acquireClient creds s).env ≠ s.env → s.client = none ∧ creds ≠ "") ∧
    (∀ u, s.client = some u → acquireClient creds s = s) ∧
    (creds = "" → (acquireClient creds s).env = s.env) ∧
    (s.client = none → creds ≠ "" → (acquireClient creds s).env = some creds) := by
  obtain ⟨cl, env, n⟩ := s
  cases cl with
  | some u => simp [acquireClient]
  | none =>
    by_cases hc : creds = "" <;> simp [acquireClient, hc]

/-- Witness for C10: with an unconstructed client and an empty credentials
path the environment variable keeps its previous value. -/
theorem C10_env_only_on_first_construction_witness :
    (acquireClient "" ⟨none, some "old.json", 5⟩).env = some "old.json" :=
  (C10_env_only_on_first_construction "" ⟨none, some "old.json", 5⟩).2.2.1 rfl
